import Mathlib

/-!
Shallow embedding of `arctic/_compression.py` and
`arctic/async/async_utils.py`.

The compression module keeps its configuration in module-level globals
(`ENABLE_PARALLEL`, `LZ4_USE_ASYNC_POOL`, `LZ4_WORKERS`, `LZ4_N_PARALLEL`,
`LZ4_MINSZ_PARALLEL`) together with the current pool object
`_compress_thread_pool`.  We bundle those globals in a state record and
translate each function as an explicit state transformer.  Worker pools are
modelled by value: the shared `ASYNC_ARCTIC` singleton, or a
`ThreadPool(size)` carrying a fresh identity so that shutdowns
(`close()`/`join()`) can be tracked in the state.  Byte strings are lists of
bytes; the lz4 transforms are opaque parameters of type `Block → Block`.
Exceptions are modelled with `Except`.
-/

/-- Errors raised by the Python runtime in the code under study. -/
inductive PyError where
  | attributeError
  | typeError
  | valueError
  | invalidStateError
deriving DecidableEq

/-- A byte string (Python `str`/`bytes`), as its list of byte values.
Only its length is inspected by the dispatch heuristics. -/
abbrev Block := List Nat

/-- The objects the global `_compress_thread_pool` can hold: the shared
`ASYNC_ARCTIC` singleton, or a `ThreadPool(size)`.  Dedicated thread pools
carry an identity (allocation order) so the state can record which of them
were shut down. -/
inductive PoolObj where
  | sharedAsync
  | threadPool (id : Nat) (size : Int)
deriving DecidableEq

/-- What `_get_compression_pool()` hands back to callers: the shared pool's
`_workers_pool`, or the `_compress_thread_pool` object itself. -/
inductive ActivePool where
  | sharedWorkers
  | raw (p : PoolObj)
deriving DecidableEq

/-- The module-level globals of `arctic/_compression.py`.  `pool` is
`_compress_thread_pool` (`none` = Python `None`).  `nextId` supplies fresh
identities for newly built `ThreadPool`s and `shutdownIds` records, in
order, the identities of the `ThreadPool`s on which `close()`/`join()` was
called. -/
structure CState where
  ENABLE_PARALLEL : Bool
  LZ4_USE_ASYNC_POOL : Bool
  LZ4_WORKERS : Int
  LZ4_N_PARALLEL : Int
  LZ4_MINSZ_PARALLEL : Int
  pool : Option PoolObj
  nextId : Nat
  shutdownIds : List Nat
deriving DecidableEq

/-- The source constant `BENCHMARK_MODE = False` (only edited by hand when
running the benchmark script). -/
def BENCHMARK_MODE : Bool := false

/-- `_init_thread_pool(use_async_pool=None, pool_size=None)`.

Faithful points: the defaults are read from the current globals; the old
pool is closed/joined only when `_compress_thread_pool is not None and not
LZ4_USE_ASYNC_POOL` (we record the closed `ThreadPool`'s identity; closing
the shared singleton in that branch would be caught and logged, and is
turned into a no-op here); in the shared branch the global flag is set, and
in the dedicated branch the new pool is built as `ThreadPool(LZ4_WORKERS)`
— from the *old* global — after which `LZ4_WORKERS = pool_size`; the
dedicated branch never writes `LZ4_USE_ASYNC_POOL`. -/
def _init_thread_pool (use_async_pool : Option Bool) (pool_size : Option Int)
    (s : CState) : CState :=
  let uap : Bool := use_async_pool.getD s.LZ4_USE_ASYNC_POOL
  let ps : Int := pool_size.getD s.LZ4_WORKERS
  let s1 : CState :=
    if s.pool.isSome && !s.LZ4_USE_ASYNC_POOL then
      match s.pool with
      | some (PoolObj.threadPool i _) =>
          { s with shutdownIds := s.shutdownIds ++ [i] }
      | _ => s
    else s
  if uap then
    { s1 with pool := some PoolObj.sharedAsync, LZ4_USE_ASYNC_POOL := true }
  else
    { s1 with pool := some (PoolObj.threadPool s1.nextId s1.LZ4_WORKERS),
              nextId := s1.nextId + 1,
              LZ4_WORKERS := ps }

/-- `_get_compression_pool()`: lazily builds the pool, then returns
`_compress_thread_pool._workers_pool` when `LZ4_USE_ASYNC_POOL` is set (an
`AttributeError` when the stored object is a `ThreadPool`, which has no
`_workers_pool`), else the pool object itself. -/
def _get_compression_pool (s : CState) : CState × Except PyError ActivePool :=
  let s2 : CState := if s.pool.isNone then _init_thread_pool none none s else s
  if s2.LZ4_USE_ASYNC_POOL then
    match s2.pool with
    | some PoolObj.sharedAsync => (s2, Except.ok ActivePool.sharedWorkers)
    | _ => (s2, Except.error PyError.attributeError)
  else
    match s2.pool with
    | some p => (s2, Except.ok (ActivePool.raw p))
    | none => (s2, Except.error PyError.attributeError)

/-- `enable_parallel_lz4(mode)`. -/
def enable_parallel_lz4 (mode : Bool) (s : CState) : CState :=
  { s with ENABLE_PARALLEL := mode }

/-- `set_use_async_pool(use_async_pool)`: no-op when `LZ4_USE_ASYNC_POOL`
already equals the request, else delegates to `_init_thread_pool`. -/
def set_use_async_pool (use_async_pool : Bool) (s : CState) : CState :=
  if s.LZ4_USE_ASYNC_POOL == use_async_pool then s
  else _init_thread_pool (some use_async_pool) none s

/-- `set_compression_pool_size(pool_size)`: when `LZ4_USE_ASYNC_POOL` is set
it only logs a warning and returns (`Except.ok` with the state unchanged —
no exception); a size below 1 raises `ValueError`; a size equal to the
recorded `LZ4_WORKERS` is a no-op; otherwise `_init_thread_pool` runs with
the new size. -/
def set_compression_pool_size (pool_size : Int) (s : CState) :
    Except PyError CState :=
  if s.LZ4_USE_ASYNC_POOL then
    Except.ok s
  else if pool_size < 1 then
    Except.error PyError.valueError
  else if s.LZ4_WORKERS == pool_size then
    Except.ok s
  else
    Except.ok (_init_thread_pool none (some pool_size) s)

/-- `compress_array(str_list, withHC)`.  `comp`/`compHC` stand for the
opaque `lz4_compress`/`lz4_compressHC` transforms.  Returns the updated
globals, whether the call dispatched through the pool (`True` exactly when
the `pool.map` branch ran), and the produced list (`pool.map` keeps input
order, so both branches map `do_compress` over the input; resolving the
pool can raise, which propagates). -/
def compress_array (comp compHC : Block → Block) (s : CState)
    (str_list : List Block) (withHC : Bool) :
    CState × Bool × Except PyError (List Block) :=
  if str_list.isEmpty then (s, false, Except.ok str_list)
  else
    let do_compress : Block → Block := if withHC then compHC else comp
    let use_parallel : Bool :=
      (s.ENABLE_PARALLEL && withHC)
        || (decide ((str_list.length : Int) > s.LZ4_N_PARALLEL)
            && decide ((str_list.headI.length : Int) > s.LZ4_MINSZ_PARALLEL))
    if BENCHMARK_MODE || use_parallel then
      let sp := _get_compression_pool s
      (sp.1, true,
        match sp.2 with
        | Except.ok _ => Except.ok (str_list.map do_compress)
        | Except.error e => Except.error e)
    else
      (s, false, Except.ok (str_list.map do_compress))

/-- `decompress_array(str_list)`.  `decomp` stands for `lz4_decompress`.
Same conventions as `compress_array`. -/
def decompress_array (decomp : Block → Block) (s : CState)
    (str_list : List Block) :
    CState × Bool × Except PyError (List Block) :=
  if str_list.isEmpty then (s, false, Except.ok str_list)
  else if !s.ENABLE_PARALLEL
      || decide ((str_list.length : Int) ≤ s.LZ4_N_PARALLEL) then
    (s, false, Except.ok (str_list.map decomp))
  else
    let sp := _get_compression_pool s
    (sp.1, true,
      match sp.2 with
      | Except.ok _ => Except.ok (str_list.map decomp)
      | Except.error e => Except.error e)

/-!  `arctic/async/async_utils.py`: the `AsyncRequest` record.  The fields
that never influence the timing/completion API (`id`, `fun`, `args`,
`kwargs`, `kind`, `library`, `symbol`, `future`) are omitted; `data` and
`exception` hold the result or the error, timestamps are integers standing
for `time.time()` readings. -/

/-- The mutable state of an `AsyncRequest`. -/
structure AsyncRequest where
  data : Option Nat
  exception : Option Nat
  start_time : Option Int
  end_time : Option Int
  create_time : Int
deriving DecidableEq

/-- `AsyncRequest.__init__`: result, error and the start/end timestamps
unset, `create_time` stamped with the current time. -/
def AsyncRequest.create (now : Int) : AsyncRequest :=
  { data := none, exception := none, start_time := none, end_time := none,
    create_time := now }

/-- `execution_duration`: `end_time - start_time if end_time is not None
else -1`.  When `end_time` is set but `start_time` is `None`, the
subtraction `end_time - None` raises `TypeError`. -/
def AsyncRequest.execution_duration (r : AsyncRequest) : Except PyError Int :=
  match r.end_time with
  | none => Except.ok (-1)
  | some e =>
    match r.start_time with
    | some s => Except.ok (e - s)
    | none => Except.error PyError.typeError

/-- `schedule_delay`: `start_time - create_time if start_time is not None
else -1` (`create_time` is always set, so this is total). -/
def AsyncRequest.schedule_delay (r : AsyncRequest) : Int :=
  match r.start_time with
  | some s => s - r.create_time
  | none => -1

/-- `total_time`: `end_time - create_time if end_time is not None else -1`
(total, as `create_time` is always set). -/
def AsyncRequest.total_time (r : AsyncRequest) : Int :=
  match r.end_time with
  | some e => e - r.create_time
  | none => -1

/-- `is_completed`: `end_time is not None`. -/
def AsyncRequest.is_completed (r : AsyncRequest) : Bool :=
  r.end_time.isSome

/-- Modelled from the spec: `markStarted()`.  The code that stamps
`start_time` lives in `arctic/async/async_arctic.py`, which is not under
`src/`; per the spec it sets `startedAt = now()` if not already set and
fails with `InvalidStateError` if called twice. -/
def AsyncRequest.mark_started (now : Int) (r : AsyncRequest) :
    Except PyError AsyncRequest :=
  if r.start_time.isNone then Except.ok { r with start_time := some now }
  else Except.error PyError.invalidStateError

/-- Modelled from the spec: `markCompleted(result | error)`.  The completion
code lives in `arctic/async/async_arctic.py`, which is not under `src/`;
per the spec it sets `completedAt = now()` and exactly one of
result/error, and fails with `InvalidStateError` if called before
`markStarted()` or more than once. -/
def AsyncRequest.mark_completed (now : Int) (outcome : Sum Nat Nat)
    (r : AsyncRequest) : Except PyError AsyncRequest :=
  if r.start_time.isNone then Except.error PyError.invalidStateError
  else if r.end_time.isSome then Except.error PyError.invalidStateError
  else
    match outcome with
    | Sum.inl v => Except.ok { r with end_time := some now, data := some v }
    | Sum.inr e =>
        Except.ok { r with end_time := some now, exception := some e }

/-- The globals as the module initialises them with no environment
overrides: parallel on, dedicated-pool mode, 2 workers, 16-item and
0.5 MB thresholds, pool not yet built. -/
def defaultState : CState :=
  { ENABLE_PARALLEL := true, LZ4_USE_ASYNC_POOL := false, LZ4_WORKERS := 2,
    LZ4_N_PARALLEL := 16, LZ4_MINSZ_PARALLEL := 524288,
    pool := none, nextId := 0, shutdownIds := [] }

/-- The globals while in shared-pool mode (the shared singleton installed,
`LZ4_USE_ASYNC_POOL` set). -/
def sharedState : CState :=
  { defaultState with LZ4_USE_ASYNC_POOL := true,
                      pool := some PoolObj.sharedAsync }

/-- The globals while in dedicated mode with a 2-worker pool installed. -/
def dedicatedState : CState :=
  { defaultState with pool := some (PoolObj.threadPool 0 2), nextId := 1 }

/-- Default globals with the byte-size threshold lowered to 2, so that a
3-byte block counts as "sufficiently large". -/
def bigBlockState : CState := { defaultState with LZ4_MINSZ_PARALLEL := 2 }

/-- A 3-byte block, larger than `bigBlockState`'s size threshold. -/
def bigBlock : Block := [0, 0, 0]

/-- `bigBlockState` with parallel execution disabled. -/
def noParState : CState := { bigBlockState with ENABLE_PARALLEL := false }

/-- C9: on the empty batch both `compress_array` and `decompress_array`
return the empty list at once, leaving the globals (hence the pool, built
or not) untouched and never taking the pool branch, whatever the
configuration and flags. -/
theorem C9_empty_batch (comp compHC decomp : Block → Block) (s : CState)
    (withHC : Bool) :
    compress_array comp compHC s [] withHC = (s, false, Except.ok []) ∧
    decompress_array decomp s [] = (s, false, Except.ok []) :=
  ⟨rfl, rfl⟩

/-- C2: on a non-empty batch, `compress_array` dispatches through the pool
exactly when `(ENABLE_PARALLEL && withHC) || (count > LZ4_N_PARALLEL &&
size of first block > LZ4_MINSZ_PARALLEL)`; only the first block's size is
consulted. -/
theorem C2_pool_dispatch (comp compHC : Block → Block) (s : CState)
    (str_list : List Block) (withHC : Bool) (hne : str_list ≠ []) :
    (compress_array comp compHC s str_list withHC).2.1 =
      ((s.ENABLE_PARALLEL && withHC)
        || (decide ((str_list.length : Int) > s.LZ4_N_PARALLEL)
            && decide ((str_list.headI.length : Int)
                        > s.LZ4_MINSZ_PARALLEL))) := by
  cases str_list with
  | nil => exact absurd rfl hne
  | cons b l =>
    rw [compress_array]
    simp only [List.isEmpty_cons, Bool.false_eq_true, if_false, BENCHMARK_MODE,
      Bool.false_or]
    cases hu : ((s.ENABLE_PARALLEL && withHC)
        || (decide (((b :: l).length : Int) > s.LZ4_N_PARALLEL)
            && decide (((b :: l).headI.length : Int)
                        > s.LZ4_MINSZ_PARALLEL))) with
    | false => simp [hu]
    | true => simp [hu]

/-- C2 witness: with parallel on and high compression requested, a single
empty block goes through the pool; with the thresholds at 16 items / 2
bytes, 17 three-byte blocks go through the pool and 15 do not. -/
theorem C2_pool_dispatch_witness :
    (([[]] : List Block) ≠ [] ∧
      (compress_array id id defaultState [[]] true).2.1 = true) ∧
    (List.replicate 17 bigBlock ≠ [] ∧
      (compress_array id id bigBlockState
        (List.replicate 17 bigBlock) false).2.1 = true) ∧
    (List.replicate 15 bigBlock ≠ [] ∧
      (compress_array id id bigBlockState
        (List.replicate 15 bigBlock) false).2.1 = false) :=
  ⟨⟨by decide,
    (C2_pool_dispatch id id defaultState [[]] true (by decide)).trans
      (by decide)⟩,
   ⟨by decide,
    (C2_pool_dispatch id id bigBlockState (List.replicate 17 bigBlock) false
      (by decide)).trans (by decide)⟩,
   ⟨by decide,
    (C2_pool_dispatch id id bigBlockState (List.replicate 15 bigBlock) false
      (by decide)).trans (by decide)⟩⟩

/-- C7: on a non-empty batch, `decompress_array` dispatches through the
pool exactly when `ENABLE_PARALLEL && count > LZ4_N_PARALLEL` (no size
threshold), and otherwise decompresses sequentially, in input order, with
the globals untouched. -/
theorem C7_decompress_dispatch (decomp : Block → Block) (s : CState)
    (str_list : List Block) (hne : str_list ≠ []) :
    (decompress_array decomp s str_list).2.1 =
      (s.ENABLE_PARALLEL
        && decide ((str_list.length : Int) > s.LZ4_N_PARALLEL)) ∧
    ((s.ENABLE_PARALLEL
        && decide ((str_list.length : Int) > s.LZ4_N_PARALLEL)) = false →
      decompress_array decomp s str_list
        = (s, false, Except.ok (str_list.map decomp))) := by
  cases str_list with
  | nil => exact absurd rfl hne
  | cons b l =>
    have hd : decide (((b :: l).length : Int) > s.LZ4_N_PARALLEL)
        = !decide (((b :: l).length : Int) ≤ s.LZ4_N_PARALLEL) := by
      rw [← decide_not, decide_eq_decide]
      exact not_le.symm
    rw [decompress_array]
    simp only [List.isEmpty_cons, Bool.false_eq_true, if_false, hd]
    cases hE : s.ENABLE_PARALLEL <;>
      cases hq : decide (((b :: l).length : Int) ≤ s.LZ4_N_PARALLEL) <;>
        simp [hE, hq]

/-- C7 witness: with parallel on and 17 items over the 16-item threshold
the pool branch is taken; a singleton batch is handled sequentially. -/
theorem C7_decompress_dispatch_witness :
    (List.replicate 17 bigBlock ≠ [] ∧
      (decompress_array id defaultState
        (List.replicate 17 bigBlock)).2.1 = true) ∧
    (([bigBlock] : List Block) ≠ [] ∧
      decompress_array id defaultState [bigBlock]
        = (defaultState, false, Except.ok ([bigBlock].map id))) :=
  ⟨⟨by decide,
    (C7_decompress_dispatch id defaultState (List.replicate 17 bigBlock)
      (by decide)).1.trans (by decide)⟩,
   ⟨by decide,
    (C7_decompress_dispatch id defaultState [bigBlock] (by decide)).2
      (by decide)⟩⟩

/-- C1 is false as stated: with `ENABLE_PARALLEL` off, a batch of 17
blocks whose first block exceeds the byte threshold still takes the pool
branch of `compress_array` — the `or` in the heuristic ignores the global
switch.  (`decompress_array` does honour the switch; see the amended
statement.) -/
theorem C1_counterexample :
    noParState.ENABLE_PARALLEL = false ∧
    (compress_array id id noParState
      (List.replicate 17 bigBlock) false).2.1 = true := by decide

/-- C1 (amended): with parallelEnabled false, `decompress_array` always
runs sequentially in input order with the globals untouched, while
`compress_array` stays off the pool only as long as the batch-size
heuristic (count > LZ4_N_PARALLEL and first-block size >
LZ4_MINSZ_PARALLEL) does not fire on a non-empty batch. -/
theorem C1_amended (comp compHC decomp : Block → Block) (s : CState)
    (str_list : List Block) (withHC : Bool)
    (hpar : s.ENABLE_PARALLEL = false) :
    decompress_array decomp s str_list
      = (s, false, Except.ok (str_list.map decomp)) ∧
    (compress_array comp compHC s str_list withHC).2.1 =
      (!str_list.isEmpty
        && (decide ((str_list.length : Int) > s.LZ4_N_PARALLEL)
            && decide ((str_list.headI.length : Int)
                        > s.LZ4_MINSZ_PARALLEL))) := by
  constructor
  · cases str_list with
    | nil => rfl
    | cons b l =>
      rw [decompress_array]
      simp [hpar]
  · cases str_list with
    | nil => rfl
    | cons b l =>
      rw [C2_pool_dispatch comp compHC s (b :: l) withHC (by simp)]
      simp [hpar]

/-- C1 (amended) witness: concrete no-parallel state, singleton batch. -/
theorem C1_amended_witness :
    noParState.ENABLE_PARALLEL = false ∧
    decompress_array id noParState [bigBlock]
      = (noParState, false, Except.ok ([bigBlock].map id)) :=
  ⟨rfl, (C1_amended id id id noParState [bigBlock] false rfl).1⟩

/-- The globals right after `set_use_async_pool(False)` is called while in
shared mode. -/
def afterSwitchToDedicated : CState := set_use_async_pool false sharedState

/-- C3 names a code bug: switching shared→dedicated installs a
`ThreadPool` but (the dedicated branch of `_init_thread_pool` never
clears the flag) leaves `LZ4_USE_ASYNC_POOL = True`, so
`_get_compression_pool` afterwards raises `AttributeError`
(`ThreadPool` has no `_workers_pool`) instead of returning a working
dedicated pool, and the subsequent `set_use_async_pool(True)` of the
shared→dedicated→shared round trip is a no-op: the manager ends up with
the dedicated `ThreadPool` still installed and never shut down, not with
the shared pool. -/
theorem C3_mode_switch_bug :
    afterSwitchToDedicated.LZ4_USE_ASYNC_POOL = true ∧
    afterSwitchToDedicated.pool = some (PoolObj.threadPool 0 2) ∧
    (_get_compression_pool afterSwitchToDedicated).2
      = Except.error PyError.attributeError ∧
    set_use_async_pool true afterSwitchToDedicated = afterSwitchToDedicated ∧
    afterSwitchToDedicated.shutdownIds = [] :=
  ⟨rfl, rfl, rfl, rfl, rfl⟩

/-- The globals right after `set_compression_pool_size(4)` is called in
dedicated mode with a 2-worker pool installed. -/
def afterResizeTo4 : CState :=
  { dedicatedState with pool := some (PoolObj.threadPool 1 2), nextId := 2,
                        LZ4_WORKERS := 4, shutdownIds := [0] }

/-- C4 names a code bug: resizing the dedicated pool from 2 to 4 workers
drains the old pool (identity 0 is recorded shut down) and records
`LZ4_WORKERS = 4`, but the replacement pool is built as
`ThreadPool(LZ4_WORKERS)` *before* the global is updated, so the new pool
has 2 workers, not the 4 the caller asked for. -/
theorem C4_resize_bug :
    set_compression_pool_size 4 dedicatedState = Except.ok afterResizeTo4 ∧
    afterResizeTo4.pool = some (PoolObj.threadPool 1 2) ∧
    afterResizeTo4.LZ4_WORKERS = 4 ∧
    afterResizeTo4.shutdownIds = [0] :=
  ⟨rfl, rfl, rfl, rfl⟩

/-- C5 is false as stated: in shared mode `set_compression_pool_size`
returns normally with every global unchanged — it only logs a warning, no
`UnsupportedOperationError` (nor any exception) reaches the caller. -/
theorem C5_counterexample :
    sharedState.LZ4_USE_ASYNC_POOL = true ∧
    set_compression_pool_size 4 sharedState = Except.ok sharedState :=
  ⟨rfl, rfl⟩

/-- C5 (amended): for every argument, calling `set_compression_pool_size`
while in shared mode is refused without effect: it logs a warning and
returns `None` (no exception), leaving all configuration state
unchanged. -/
theorem C5_amended (pool_size : Int) (s : CState)
    (h : s.LZ4_USE_ASYNC_POOL = true) :
    set_compression_pool_size pool_size s = Except.ok s := by
  rw [set_compression_pool_size, h]
  rfl

/-- C5 (amended) witness at a concrete shared-mode state and argument. -/
theorem C5_amended_witness :
    sharedState.LZ4_USE_ASYNC_POOL = true ∧
    set_compression_pool_size 9 sharedState = Except.ok sharedState :=
  ⟨rfl, C5_amended 9 sharedState rfl⟩

/-- C6 (transitions modelled from the spec): completing a fresh request
fails with `InvalidStateError`; after a successful `mark_started`, a second
`mark_started` fails with `InvalidStateError`; a valid
`mark_started`/`mark_completed(result=x)` run accepts exactly once (a
second completion fails with `InvalidStateError`) and leaves `data = x`,
`exception` unset and a non-negative `execution_duration` (the completion
timestamp not preceding the start timestamp). -/
theorem C6_request_lifecycle (tc t t2 : Int) (x : Nat) (h : t ≤ t2) :
    ((AsyncRequest.create tc).mark_completed t (Sum.inl x)
        = Except.error PyError.invalidStateError) ∧
    ∃ r1, (AsyncRequest.create tc).mark_started t = Except.ok r1 ∧
      r1.mark_started t2 = Except.error PyError.invalidStateError ∧
      ∃ r2, r1.mark_completed t2 (Sum.inl x) = Except.ok r2 ∧
        r2.mark_completed t2 (Sum.inl x)
          = Except.error PyError.invalidStateError ∧
        r2.data = some x ∧ r2.exception = none ∧
        ∃ d, r2.execution_duration = Except.ok d ∧ 0 ≤ d :=
  ⟨rfl, _, rfl, rfl, _, rfl, rfl, rfl, rfl, t2 - t, rfl, by omega⟩

/-- C6 witness at concrete timestamps 0, 1, 3 and result 5. -/
theorem C6_request_lifecycle_witness :
    (1 : Int) ≤ 3 ∧
    ((AsyncRequest.create 0).mark_completed 1 (Sum.inl 5)
      = Except.error PyError.invalidStateError) :=
  ⟨by decide, (C6_request_lifecycle 0 1 3 5 (by decide)).1⟩

/-- C8: each derived timing accessor returns the −1 sentinel exactly when
its prerequisite timestamp is unset: `execution_duration` is
`end_time - start_time` when completed (and started, the reachable case;
the completed-but-unstarted state is the subject of the next theorem) and
−1 otherwise, `schedule_delay` is `start_time - create_time` when started
and −1 otherwise, `total_time` is `end_time - create_time` when completed
and −1 otherwise, and `is_completed` holds iff `end_time` is set. -/
theorem C8_timing_accessors (r : AsyncRequest) :
    (∀ e s, r.end_time = some e → r.start_time = some s →
        r.execution_duration = Except.ok (e - s)) ∧
    (r.end_time = none → r.execution_duration = Except.ok (-1)) ∧
    (∀ s, r.start_time = some s → r.schedule_delay = s - r.create_time) ∧
    (r.start_time = none → r.schedule_delay = -1) ∧
    (∀ e, r.end_time = some e → r.total_time = e - r.create_time) ∧
    (r.end_time = none → r.total_time = -1) ∧
    (r.is_completed = true ↔ r.end_time ≠ none) := by
  refine ⟨?_, ?_, ?_, ?_, ?_, ?_, ?_⟩
  · intro e s he hs
    simp [AsyncRequest.execution_duration, he, hs]
  · intro he
    simp [AsyncRequest.execution_duration, he]
  · intro s hs
    simp [AsyncRequest.schedule_delay, hs]
  · intro hs
    simp [AsyncRequest.schedule_delay, hs]
  · intro e he
    simp [AsyncRequest.total_time, he]
  · intro he
    simp [AsyncRequest.total_time, he]
  · simp [AsyncRequest.is_completed, Option.isSome_iff_ne_none]

/-- A request created at 1, started at 2 and completed at 5. -/
def timedRequest : AsyncRequest :=
  { data := none, exception := none, start_time := some 2, end_time := some 5,
    create_time := 1 }

/-- C8 witness on a concrete started-and-completed request. -/
theorem C8_timing_accessors_witness :
    timedRequest.execution_duration = Except.ok (5 - 2) ∧
    timedRequest.schedule_delay = 2 - 1 ∧
    timedRequest.total_time = 5 - 1 ∧
    (timedRequest.is_completed = true ↔ timedRequest.end_time ≠ none) :=
  ⟨(C8_timing_accessors timedRequest).1 5 2 rfl rfl,
   (C8_timing_accessors timedRequest).2.2.1 2 rfl,
   (C8_timing_accessors timedRequest).2.2.2.2.1 5 rfl,
   (C8_timing_accessors timedRequest).2.2.2.2.2.2⟩

/-- A request whose `end_time` is set while `start_time` is not — the
state outside the lifecycle invariant. -/
def strayRequest : AsyncRequest :=
  { data := none, exception := none, start_time := none, end_time := some 5,
    create_time := 0 }

/-- C10: on a request whose `end_time` is set while `start_time` is unset,
reading `execution_duration` raises (`end_time - None` is a `TypeError`)
rather than producing the −1 sentinel or any number; and that is the only
way the accessor can fail, so it is total exactly on requests where
`start_time` is set whenever `end_time` is. -/
theorem C10_execution_duration_partial :
    strayRequest.execution_duration = Except.error PyError.typeError ∧
    ∀ r : AsyncRequest,
      (r.execution_duration = Except.error PyError.typeError
        ↔ (r.end_time.isSome = true ∧ r.start_time = none)) := by
  refine ⟨rfl, fun r => ?_⟩
  cases he : r.end_time <;> cases hs : r.start_time <;>
    simp [AsyncRequest.execution_duration, he, hs]
